import Mathlib

/-!
Verification of the python-ivi instrument driver corpus: a shallow embedding
of the attribute/cache/command-translation code in `src/ivi/load.py`,
`src/ivi/scpi/load.py`, `src/ivi/sun/sunEC1X.py` and
`src/ivi/tektronix/tektronixBaseRSA.py`, followed by theorems about the
embedded definitions.

Modelling conventions:
* Python floats are modelled as rationals; `float(value)` applied to a float
  is the identity, so setter bodies that coerce keep the value unchanged.
* Transport traffic is an explicit list of events: `Event.write cmd` for
  `self._write(cmd)` and `Event.ask cmd` for `self._ask(cmd)`.
* A method that can raise returns its (possibly unchanged) state together
  with an `Option PyError`; when the source raises before mutating anything
  the embedding returns the input state with the error, mirroring Python
  exception semantics where the object is left as it was at the raise point.
* Instrument replies needed by a getter are passed in as an explicit
  parameter (the reply the transport would deliver).
-/

namespace Ivi

/-- Errors raised by the embedded code.  `valueNotSupported` is
`ivi.ValueNotSupportedException`, `selectorRange` the selector resolution
failure of the repeated-capability registry, `typeError` and `nameError`
are the corresponding Python builtin exceptions, `valueError` is the
failure of `float()`/`int()` on a non-numeric string, and `indexError` is
`[...][0]` on an empty list. -/
inductive PyError where
  | valueNotSupported
  | selectorRange
  | typeError
  | nameError (missing : String)
  | valueError
  | indexError
  deriving DecidableEq

/-- One transport interaction: `write` sends a command, `ask` sends a query
and reads a reply.  The command text is the fully rendered string the source
passes to `self._write` / `self._ask`. -/
inductive Event where
  | write (cmd : String)
  | ask (cmd : String)
  deriving DecidableEq

instance {e a : Type} [DecidableEq e] [DecidableEq a] :
    DecidableEq (Except e a) := fun x y =>
  match x, y with
  | .ok u, .ok v => if h : u = v then isTrue (by simp [h])
    else isFalse (by simp [h])
  | .error u, .error v => if h : u = v then isTrue (by simp [h])
    else isFalse (by simp [h])
  | .ok _, .error _ => isFalse (by simp)
  | .error _, .ok _ => isFalse (by simp)

/-- Python `str.upper` on the ASCII command strings of this corpus is a
per-character upper-casing. -/
def pyUpper (s : String) : String := String.mk (s.data.map Char.toUpper)

/-- Python `str.lower`, likewise per-character on ASCII. -/
def pyLower (s : String) : String := String.mk (s.data.map Char.toLower)

/-- Numeric decimal rendering of a rational, matching the text Python string
interpolation produces for a float whose value is an exact decimal
(for example `0.0`, `-5.25`).  The denominator of every float reaching this
helper in the embedded code divides a power of ten. -/
def decRender (q : ℚ) : String :=
  let sign := if q < 0 then "-" else ""
  let n := q.num.natAbs
  let d := q.den
  let k := ((List.range 21).find? (fun k => (n * 10 ^ k) % d == 0)).getD 0
  let m := n * 10 ^ k / d
  let ip := m / 10 ^ k
  let fp := m % 10 ^ k
  let fpText := toString fp
  if k == 0 then sign ++ toString ip ++ ".0"
  else sign ++ toString ip ++ "." ++
    String.mk (List.replicate (k - fpText.length) '0') ++ fpText

/-- Stand-in for the `%f` / `%e` format specifiers used by the Tektronix
driver command strings.  No claim in this development depends on the digits
rendered by those specifiers, only on whether and which command is sent. -/
def pctRender (q : ℚ) : String := decRender q

/-- Value of a nonempty list of decimal digit characters. -/
def digitsVal (l : List Char) : Option ℕ :=
  if l ≠ [] ∧ l.all Char.isDigit then
    some (l.foldl (fun a c => a * 10 + (c.toNat - 48)) 0)
  else none

/-- Split a character list at the decimal-point characters. -/
def splitDot : List Char → List (List Char)
  | [] => [[]]
  | '.' :: r => [] :: splitDot r
  | c :: r =>
    match splitDot r with
    | [] => [[c]]
    | p :: ps => (c :: p) :: ps

/-- Embedded `float(s)` on a decimal-literal string: optional sign, an
integer part, an optional fractional part (Python accepts `"5."` and
`".5"`).  Exponent and infinity forms are outside what the claims need;
a non-numeric string such as `"MIN"` fails with `ValueError`. -/
def pyFloat (s : String) : Except PyError ℚ :=
  let body := match s.data with
    | '-' :: r => (true, r)
    | '+' :: r => (false, r)
    | r => (false, r)
  let sgn : Int := if body.1 then -1 else 1
  match splitDot body.2 with
  | [a] =>
    match digitsVal a with
    | some n => .ok (mkRat (sgn * n) 1)
    | none => .error .valueError
  | [a, b] =>
    if a.all Char.isDigit ∧ b.all Char.isDigit ∧ (a ≠ [] ∨ b ≠ []) then
      let ip := (digitsVal a).getD 0
      let fp := (digitsVal b).getD 0
      .ok (mkRat (sgn * (ip * 10 ^ b.length + fp)) (10 ^ b.length))
    else .error .valueError
  | _ => .error .valueError

/-- Embedded `int(s)` on a decimal-literal string. -/
def pyInt (s : String) : Except PyError Int :=
  let body := match s.data with
    | '-' :: r => (true, r)
    | '+' :: r => (false, r)
    | r => (false, r)
  match digitsVal body.2 with
  | some n => .ok (if body.1 then -(n : Int) else (n : Int))
  | none => .error .valueError

/-- A Python value reaching a numeric setter: either a string (the MIN/MAX
sentinel path) or a float. -/
inductive PyVal where
  | str (s : String)
  | num (q : ℚ)
  deriving DecidableEq

/-! ## Command translator helpers

`src/ivi/scpi/load.py` encodes booleans as `1`/`0`
(`_set_bool`: the f-string interpolates `1 if value else 0`) and decodes
them with `bool(int(...))` (`_get_bool`).  Numeric setters
(`_set_scalar` and its per-attribute copies) pass the upper-cased MIN/MAX
mnemonic through verbatim and otherwise interpolate `float(value)`;
numeric getters decode with `float(...)`.  Enumerated values go through
`LoadModeMapping` in `_set_mode` / `_get_mode`.
`src/ivi/tektronix/tektronixBaseRSA.py` line 62 defines `onoff`, which is
both directions of the on/off encoding, dispatching on the argument type. -/

/-- `onoff` applied to a bool (`tektronixBaseRSA.py` line 65). -/
def onoffOfBool (b : Bool) : String := if b then "1" else "0"

/-- `onoff` applied to a string (`tektronixBaseRSA.py` line 63):
`x.upper() in ('1', 'ON')`. -/
def onoffOfStr (s : String) : Bool := pyUpper s == "1" || pyUpper s == "ON"

/-- Wire token emitted for a boolean by `scpi.load.Base._set_bool`. -/
def boolToWire (b : Bool) : String := if b then "1" else "0"

/-- Decoding of a boolean reply by `scpi.load.Base._get_bool`:
`bool(int(token))`. -/
def boolFromWire (t : String) : Except PyError Bool :=
  (pyInt t).map (fun n => n != 0)

/-- Wire token emitted for a numeric value by `scpi.load.Base._set_scalar`
and the per-attribute numeric setters: `none` means the setter falls
through without writing anything (a string that is not MIN/MAX). -/
def numToWire (v : PyVal) : Option String :=
  match v with
  | .str s =>
    let u := pyUpper s
    if u = "MIN" ∨ u = "MAX" then some u else none
  | .num q => some (decRender q)

/-- Decoding of a numeric reply by the getters: `float(token)`. -/
def numFromWire (t : String) : Except PyError ℚ := pyFloat t

/-- `LoadModeMapping` of `src/ivi/scpi/load.py` lines 34-42, in insertion
order. -/
def LoadModeMapping : List (String × String) :=
  [("constant_current", "CURRENT"),
   ("constant_voltage", "VOLTAGE"),
   ("constant_resistance", "RESISTANCE"),
   ("constant_power", "POWER"),
   ("dynamic", "DYNAMIC"),
   ("led", "LED"),
   ("constant_impedance", "IMPEDANCE")]

/-- The key set of `LoadModeMapping` (Python `value in LoadModeMapping`
tests key membership). -/
def loadModeKeys : List String := LoadModeMapping.map Prod.fst

/-- Enum encoding: `LoadModeMapping[value]` in `_set_mode`. -/
def enumToWire (m : List (String × String)) (v : String) : Option String :=
  (m.lookup v)

/-- Enum decoding in `_get_mode`:
`[k for k, v in LoadModeMapping.items() if v == value][0]`, which raises
`IndexError` when no table value matches the reply. -/
def enumFromWire (m : List (String × String)) (t : String) :
    Except PyError String :=
  match m.filter (fun p => p.2 == t) with
  | [] => .error .indexError
  | p :: _ => .ok p.1

/-- `LoadMode` of `src/ivi/load.py` line 37: the four-element set the base
driver accepts. -/
def LoadMode : List String :=
  ["constant_current", "constant_voltage", "constant_resistance",
   "constant_power"]

/-! ## Electronic load driver state (`src/ivi/load.py`)

`load.Base.__init__` creates per-channel backing lists and `_init_channels`
fills them; `scpi.load.Base` inherits this state, adding the simulate flag
consulted by its hardware-facing methods.  Only the fields the claims touch
are carried; the current-channel index `_channel` is kept within the list
bounds by `_set_channel`, so list reads use `getD`. -/

structure LoadState where
  simulate : Bool
  channel : ℕ
  channel_name : List String
  channel_mode : List String
  channel_voltage_on : List ℚ
  channel_voltage_off : List ℚ
  channel_voltage_protection : List ℚ
  deriving DecidableEq

/-- `load.Base._init_channels` for `n` channels: names `CH1`, `CH2`, ...,
mode `constant_current`, `voltage_on` 0.1, `voltage_off` 0, protection 0,
with the current channel defaulting to 0 and simulate off. -/
def initChannels (n : ℕ) : LoadState :=
  { simulate := false
    channel := 0
    channel_name := (List.range n).map (fun i => "CH" ++ toString (i + 1))
    channel_mode := List.replicate n "constant_current"
    channel_voltage_on := List.replicate n (mkRat 1 10)
    channel_voltage_off := List.replicate n 0
    channel_voltage_protection := List.replicate n 0 }

/-- The index selector accepted by indexed attributes: a channel name or an
integer position. -/
inductive Selector where
  | name (s : String)
  | idx (i : Int)
  deriving DecidableEq

/-- Modelled from the spec: `ivi.get_index` of the framework module
(`ivi/ivi.py` is not part of the provided sources).  Spec section 4.2:
`resolveIndex` accepts either an integer, checked against `[0, len)`, or a
string, checked for exact membership; resolution failure is a
`SelectorRangeException`-style hard error. -/
def get_index (l : List String) : Selector → Except PyError ℕ
  | .name s => match l.indexOf? s with
    | some i => .ok i
    | none => .error .selectorRange
  | .idx i => if 0 ≤ i ∧ i < (l.length : Int) then .ok i.toNat
    else .error .selectorRange

/-- `load.Base._set_channel` (line 241): resolve the selector through the
channel-name collection and store the resolved index. -/
def base_set_channel (sel : Selector) (st : LoadState) :
    LoadState × Option PyError :=
  match get_index st.channel_name sel with
  | .ok i => ({ st with channel := i }, none)
  | .error e => (st, some e)

/-- `load.Base._get_channel_name` (line 252):
`return self._channel_name[self.channel]` — the `index` argument is
received but not used; the current channel is read instead. -/
def base_get_channel_name (_index : Selector) (st : LoadState) : String :=
  st.channel_name.getD st.channel ""

/-- `load.Base._set_channel_name` (line 255): resolve the index, then store
the new name at the resolved slot. -/
def base_set_channel_name (index : Selector) (v : String) (st : LoadState) :
    LoadState × Option PyError :=
  match get_index st.channel_name index with
  | .ok i => ({ st with channel_name := st.channel_name.set i v }, none)
  | .error e => (st, some e)

/-- Modelled from the spec: the indexed-attribute dispatch of the framework
module (`ivi/ivi.py` is not in the provided sources).  Spec section 4.1:
for indexed paths the index is resolved through the owning collection
before the getter runs, an unresolvable selector failing hard; on success
the source getter `_get_channel_name` is invoked with the index. -/
def channels_name_get (index : Selector) (st : LoadState) :
    Except PyError String :=
  (get_index st.channel_name index).map (fun _ => base_get_channel_name index st)

/-- `load.Base._set_mode` (line 263): accept exactly the four `LoadMode`
values, otherwise raise `ValueNotSupportedException` leaving the cached
mode unchanged. -/
def base_set_mode (v : String) (st : LoadState) : LoadState × Option PyError :=
  if v ∈ LoadMode then
    ({ st with channel_mode := st.channel_mode.set st.channel v }, none)
  else (st, some .valueNotSupported)

/-- `load.Base._get_mode` (line 260). -/
def base_get_mode (st : LoadState) : String :=
  st.channel_mode.getD st.channel ""

/-- `load.Base._get_voltage_on` (line 293). -/
def base_get_voltage_on (st : LoadState) : ℚ :=
  st.channel_voltage_on.getD st.channel 0

/-- `load.Base._set_voltage_on` (line 296). -/
def base_set_voltage_on (v : ℚ) (st : LoadState) : LoadState :=
  { st with channel_voltage_on := st.channel_voltage_on.set st.channel v }

/-- `load.Base._get_voltage_off` (line 299). -/
def base_get_voltage_off (st : LoadState) : ℚ :=
  st.channel_voltage_off.getD st.channel 0

/-- `load.Base._set_voltage_off` (line 302). -/
def base_set_voltage_off (v : ℚ) (st : LoadState) : LoadState :=
  { st with channel_voltage_off := st.channel_voltage_off.set st.channel v }

/-- `load.Base._get_voltage_protection` (line 305): the source reads
`self._channel_voltage_off[self._channel]`, not the protection list. -/
def base_get_voltage_protection (st : LoadState) : ℚ :=
  st.channel_voltage_off.getD st.channel 0

/-- `load.Base._set_voltage_protection` (line 308): writes the protection
list. -/
def base_set_voltage_protection (v : ℚ) (st : LoadState) : LoadState :=
  { st with channel_voltage_protection :=
      st.channel_voltage_protection.set st.channel v }

/-! ## SCPI load driver (`src/ivi/scpi/load.py`) -/

/-- `scpi.load.Base._set_mode` (line 187): accept any `LoadModeMapping`
key, emitting the mapped mnemonic when not simulating; any other value
raises `ValueNotSupportedException` before the cached mode is touched. -/
def scpi_set_mode (v : String) (st : LoadState) :
    LoadState × List Event × Option PyError :=
  if v ∈ loadModeKeys then
    ({ st with channel_mode := st.channel_mode.set st.channel v },
     if st.simulate then [] else
       [.write (":SOUR:MODE " ++ ((LoadModeMapping.lookup v).getD ""))],
     none)
  else (st, [], some .valueNotSupported)

/-- `scpi.load.Base._set_scalar` (line 156): skip entirely when simulating;
a string argument is upper-cased and written only when it is the MIN or MAX
mnemonic, any other string falls through silently; a float argument is
interpolated as its decimal text. -/
def scpi_set_scalar (cmd : String) (v : PyVal) (st : LoadState) :
    LoadState × List Event :=
  if st.simulate then (st, [])
  else match v with
    | .str s =>
      let u := pyUpper s
      if u = "MIN" ∨ u = "MAX" then (st, [.write (":" ++ cmd ++ " " ++ u)])
      else (st, [])
    | .num q => (st, [.write (":" ++ cmd ++ " " ++ decRender q)])

/-- `scpi.load.Base._set_current_protection` (line 320): the same MIN/MAX
handling inlined for the `:CURR:PROT` command. -/
def scpi_set_current_protection (v : PyVal) (st : LoadState) :
    LoadState × List Event :=
  if st.simulate then (st, [])
  else match v with
    | .str s =>
      let u := pyUpper s
      if u = "MIN" ∨ u = "MAX" then (st, [.write (":CURR:PROT " ++ u)])
      else (st, [])
    | .num q => (st, [.write (":CURR:PROT " ++ decRender q)])

/-- `scpi.load.Base._set_voltage_on` (line 229): the same MIN/MAX handling
inlined for the `:VOLT:ON` command. -/
def scpi_set_voltage_on (v : PyVal) (st : LoadState) :
    LoadState × List Event :=
  if st.simulate then (st, [])
  else match v with
    | .str s =>
      let u := pyUpper s
      if u = "MIN" ∨ u = "MAX" then (st, [.write (":VOLT:ON " ++ u)])
      else (st, [])
    | .num q => (st, [.write (":VOLT:ON " ++ decRender q)])

/-- `scpi.load.Base._get_voltage_on` (line 225): `float(ask(":VOLT:ON?"))`
when not simulating, otherwise fall through returning `None`. -/
def scpi_get_voltage_on (resp : String) (st : LoadState) :
    Except PyError (Option ℚ) × List Event :=
  if st.simulate then (.ok none, [])
  else ((pyFloat resp).map some, [.ask ":VOLT:ON?"])

/-! ## Tektronix RSA driver (`src/ivi/tektronix/tektronixBaseRSA.py`)

Backing fields and per-attribute cache-validity flags.  The framework
methods `_set_cache_valid(valid, key)` / `_get_cache_valid()`
(`ivi/ivi.py`, not in the provided sources) are modelled from the spec as
the Value Cache contract of section 4.3: each attribute key carries a
validity flag, written by its own getter and setter and cleared by the
invalidation calls the source makes explicitly.  Cache values for the
sweep-coupling attributes are not needed by any claim, only their flags. -/

structure RsaState where
  simulate : Bool
  frequency_center : ℚ
  frequency_start : ℚ
  frequency_stop : ℚ
  frequency_span : ℚ
  valid_frequency_center : Bool
  valid_frequency_start : Bool
  valid_frequency_stop : Bool
  valid_frequency_span : Bool
  valid_sweep_coupling_resolution_bandwidth : Bool
  valid_sweep_coupling_sweep_time : Bool
  valid_sweep_coupling_video_bandwidth : Bool
  rf_level : ℚ
  rf_attenuation : ℚ
  rf_attenuation_auto : Bool
  rf_output_enabled : Bool
  rf_power_mode : String
  rf_power_offset : ℚ
  rf_power_span : ℚ
  rf_tracking_adjust : Int
  valid_rf_attenuation : Bool
  deriving DecidableEq

/-- `tektronixBaseRSA._memory_size` (line 119). -/
def memory_size : Int := 9

/-- `tektronixBaseRSA._set_frequency_center` (line 722): write `cf ... hz`
when not simulating, store the value, mark `frequency_center` valid, and
clear the validity of `frequency_start`, `frequency_stop` and the three
sweep-coupling attributes.  The `frequency_span` flag is not touched. -/
def set_frequency_center (v : ℚ) (st : RsaState) : RsaState × List Event :=
  ({ st with
      frequency_center := v
      valid_frequency_center := true
      valid_frequency_start := false
      valid_frequency_stop := false
      valid_sweep_coupling_resolution_bandwidth := false
      valid_sweep_coupling_sweep_time := false
      valid_sweep_coupling_video_bandwidth := false },
   if st.simulate then [] else [.write ("cf " ++ pctRender v ++ " hz")])

/-- `tektronixBaseRSA._get_frequency_start` (line 680): when not simulating
and the cache is invalid, ask `fa?`, store the float reply and mark the
entry valid; otherwise return the cached field.  The reply is passed in
already float-parsed. -/
def get_frequency_start (resp : ℚ) (st : RsaState) :
    ℚ × RsaState × List Event :=
  if st.simulate = false ∧ st.valid_frequency_start = false then
    (resp,
     { st with frequency_start := resp, valid_frequency_start := true },
     [.ask "fa?"])
  else (st.frequency_start, st, [])

/-- `tektronixBaseRSA._get_frequency_span` (line 734): when not simulating
and the cache is invalid, ask `sp?`, store the float reply and mark the
entry valid; otherwise return the cached field. -/
def get_frequency_span (resp : ℚ) (st : RsaState) :
    ℚ × RsaState × List Event :=
  if st.simulate = false ∧ st.valid_frequency_span = false then
    (resp,
     { st with frequency_span := resp, valid_frequency_span := true },
     [.ask "sp?"])
  else (st.frequency_span, st, [])

/-- `tektronixBaseRSA._get_level_amplitude_units` (line 627):
`return self._ask("POW:UNIT?").lower()` — the query is issued with no
simulate guard and no cache consultation. -/
def get_level_amplitude_units (resp : String) (_st : RsaState) :
    String × List Event :=
  (pyLower resp, [.ask "POW:UNIT?"])

/-- `tektronixBaseRSA._set_rf_attenuation` (line 473): write `srcat ...`
when not simulating, store the value, force `_rf_attenuation_auto` to
`False`, and mark the cache entry valid. -/
def set_rf_attenuation (v : ℚ) (st : RsaState) : RsaState × List Event :=
  ({ st with
      rf_attenuation := v
      rf_attenuation_auto := false
      valid_rf_attenuation := true },
   if st.simulate then [] else [.write ("srcat " ++ pctRender v)])

/-- `tektronixBaseRSA._memory_save` (line 439).  The bounds check runs
first; the name `OutOfRangeException` is not defined or imported in the
module, so the raise itself fails with a `NameError` naming it.  In the
in-range non-simulate branch the argument of `self._write` is
`"SAVES %d" % index+1`: `%` binds tighter than `+`, so a string plus an
integer raises `TypeError` before anything is written. -/
def memory_save (index : Int) (st : RsaState) :
    RsaState × List Event × Option PyError :=
  if index < 0 ∨ memory_size ≤ index then
    (st, [], some (.nameError "OutOfRangeException"))
  else if st.simulate then (st, [], none)
  else (st, [], some .typeError)

/-- `tektronixBaseRSA._memory_recall` (line 446).  Same structure as
`_memory_save`: out-of-range indices hit the undefined
`OutOfRangeException` name (`NameError`), and the in-range non-simulate
branch raises `TypeError` evaluating `"RCLS %d" % index+1`, so the
`invalidate_all_attributes()` call on the following line is never reached;
in simulate mode the method returns without invalidating anything. -/
def memory_recall (index : Int) (st : RsaState) :
    RsaState × List Event × Option PyError :=
  if index < 0 ∨ memory_size ≤ index then
    (st, [], some (.nameError "OutOfRangeException"))
  else if st.simulate then (st, [], none)
  else (st, [], some .typeError)

/-! ## Sun EC1x chamber driver (`src/ivi/sun/sunEC1X.py`) -/

structure SunState where
  simulate : Bool
  deriving DecidableEq

/-- `sunEC1X._get_temperature` (line 123): return the fixed default `0`
when simulating, otherwise `float(ask("TEMP?"))`.  The reply is passed in
already float-parsed. -/
def sun_get_temperature (resp : ℚ) (st : SunState) : ℚ × List Event :=
  if st.simulate then (0, [])
  else (resp, [.ask "TEMP?"])

/-! ## Concrete states used by closed theorems -/

/-- A live (non-simulated) RSA state with every cache entry valid. -/
def rsaLive : RsaState :=
  { simulate := false
    frequency_center := mkRat 3 2
    frequency_start := 1
    frequency_stop := 2
    frequency_span := 100
    valid_frequency_center := true
    valid_frequency_start := true
    valid_frequency_stop := true
    valid_frequency_span := true
    valid_sweep_coupling_resolution_bandwidth := true
    valid_sweep_coupling_sweep_time := true
    valid_sweep_coupling_video_bandwidth := true
    rf_level := 0
    rf_attenuation := 0
    rf_attenuation_auto := true
    rf_output_enabled := false
    rf_power_mode := "fixed"
    rf_power_offset := 0
    rf_power_span := 0
    rf_tracking_adjust := 0
    valid_rf_attenuation := false }

/-- The same RSA state with the simulate flag raised. -/
def rsaSim : RsaState := { rsaLive with simulate := true }

/-! ## Claims -/

/-- C1: the claim says that with simulate on no transport `write`/`ask`
ever occurs during any attribute get, and numeric getters return their
documented default.  The Sun chamber temperature getter does behave that
way, but the RSA amplitude-units getter issues `POW:UNIT?` with no
simulate guard, addressing the instrument even in simulate mode: the code
contradicts the simulate-mode contract on this registered attribute. -/
theorem simulate_amplitude_units_still_asks :
    rsaSim.simulate = true ∧
    (get_level_amplitude_units "DBM" rsaSim).2 = [.ask "POW:UNIT?"] ∧
    sun_get_temperature 25 ⟨true⟩ = (0, []) := by
  decide

/-- C2 counterexample: the claim says a set of `frequency.center` leaves
the `frequency.span` validity flag false.  On a live state whose span
entry is valid, setting the center keeps the span entry valid, and the
following span get performs no hardware query, returning the stale cached
100 rather than the fresh reply 999. -/
theorem set_center_leaves_span_valid :
    rsaLive.simulate = false ∧
    rsaLive.valid_frequency_span = true ∧
    ((set_frequency_center 5 rsaLive).1).valid_frequency_span = true ∧
    get_frequency_span 999 (set_frequency_center 5 rsaLive).1 =
      (100, (set_frequency_center 5 rsaLive).1, []) := by
  decide

/-- C2 amended: after a set of `frequency.center`, the cache validity flag
of `frequency.start` is false, so a subsequent non-simulate get of
`frequency.start` issues a fresh `fa?` hardware query and returns the new
reply; the `frequency.span` flag is left unchanged, so a get of
`frequency.span` whose cache was valid returns the cached value with no
hardware traffic. -/
theorem set_center_invalidates_start_not_span (v r : ℚ) (st : RsaState)
    (h : st.simulate = false) :
    ((set_frequency_center v st).1).valid_frequency_start = false ∧
    ((set_frequency_center v st).1).valid_frequency_span =
      st.valid_frequency_span ∧
    get_frequency_start r (set_frequency_center v st).1 =
      (r,
       { (set_frequency_center v st).1 with
          frequency_start := r, valid_frequency_start := true },
       [.ask "fa?"]) ∧
    (st.valid_frequency_span = true →
      get_frequency_span r (set_frequency_center v st).1 =
        (st.frequency_span, (set_frequency_center v st).1, [])) := by
  refine ⟨rfl, rfl, ?_, ?_⟩
  · simp [set_frequency_center, get_frequency_start, h]
  · intro hv
    simp [set_frequency_center, get_frequency_span, h, hv]

/-- C2 amended witness at `v = 5`, reply 7, state `rsaLive`. -/
theorem set_center_invalidates_start_not_span_witness :
    rsaLive.simulate = false ∧
    (((set_frequency_center 5 rsaLive).1).valid_frequency_start = false ∧
    ((set_frequency_center 5 rsaLive).1).valid_frequency_span =
      rsaLive.valid_frequency_span ∧
    get_frequency_start 7 (set_frequency_center 5 rsaLive).1 =
      (7,
       { (set_frequency_center 5 rsaLive).1 with
          frequency_start := 7, valid_frequency_start := true },
       [.ask "fa?"]) ∧
    (rsaLive.valid_frequency_span = true →
      get_frequency_span 7 (set_frequency_center 5 rsaLive).1 =
        (rsaLive.frequency_span, (set_frequency_center 5 rsaLive).1, []))) :=
  ⟨by decide, set_center_invalidates_start_not_span 5 7 rsaLive (by decide)⟩

/-- C3 counterexample: the claim says any mode value outside the four-set
fails with `ValueNotSupportedException` in both drivers.  The SCPI driver
accepts `dynamic` — not in the four-set — succeeding and changing the
cached mode. -/
theorem scpi_set_mode_accepts_dynamic :
    "dynamic" ∉ LoadMode ∧
    scpi_set_mode "dynamic" (initChannels 1) =
      ({ initChannels 1 with channel_mode := ["dynamic"] },
       [.write ":SOUR:MODE DYNAMIC"], none) := by
  decide

/-- C3 amended: a mode set with a value outside the driver's accepting set
fails with `ValueNotSupportedException` and leaves the cached mode
unchanged; the accepting set is the four-element `LoadMode` for the base
driver but the seven `LoadModeMapping` keys (adding `dynamic`, `led`,
`constant_impedance`) for the SCPI driver. -/
theorem set_mode_rejects_unknown_values (x : String)
    (stB stS : LoadState) :
    (x ∉ LoadMode → base_set_mode x stB = (stB, some .valueNotSupported)) ∧
    (x ∉ loadModeKeys →
      scpi_set_mode x stS = (stS, [], some .valueNotSupported)) := by
  constructor
  · intro hx
    simp [base_set_mode, hx]
  · intro hx
    simp [scpi_set_mode, hx]

/-- C3 amended witness at `x = "sideways"`. -/
theorem set_mode_rejects_unknown_values_witness :
    ("sideways" ∉ LoadMode →
      base_set_mode "sideways" (initChannels 1) =
        (initChannels 1, some .valueNotSupported)) ∧
    ("sideways" ∉ loadModeKeys →
      scpi_set_mode "sideways" (initChannels 1) =
        (initChannels 1, [], some .valueNotSupported)) :=
  set_mode_rejects_unknown_values "sideways" (initChannels 1)
    (initChannels 1)

/-- C4 counterexample: the claim includes the numeric sentinels `MIN` and
`MAX` in the round trip, but decoding always parses as float, so the
emitted mnemonic fails to decode back. -/
theorem min_sentinel_does_not_round_trip :
    numToWire (.str "MIN") = some "MIN" ∧
    numFromWire "MIN" = .error .valueError := by
  decide

/-- C4 amended: decoding after encoding is the identity for the boolean
kind (both the scpi 1/0 encoding and the RSA `onoff` helper), for finite
numeric values such as 0.0 and -5.25, and for every `LoadModeMapping`
entry; the numeric MIN/MAX sentinel strings are excluded, since the wire
mnemonic is not float-parseable. -/
theorem translator_round_trip :
    boolFromWire (boolToWire true) = .ok true ∧
    boolFromWire (boolToWire false) = .ok false ∧
    onoffOfStr (onoffOfBool true) = true ∧
    onoffOfStr (onoffOfBool false) = false ∧
    numToWire (.num 0) = some (decRender 0) ∧
    numFromWire (decRender 0) = .ok 0 ∧
    numToWire (.num (mkRat (-21) 4)) = some (decRender (mkRat (-21) 4)) ∧
    numFromWire (decRender (mkRat (-21) 4)) = .ok (mkRat (-21) 4) ∧
    (LoadModeMapping.all (fun p =>
      enumToWire LoadModeMapping p.1 == some p.2 &&
      enumFromWire LoadModeMapping p.2 == .ok p.1)) = true := by
  decide

/-- C5: the claim (and the docstring of `channels[].name` itself) says an
indexed access addresses the slot of the resolved index and hard-fails on
a bad selector.  The source getter ignores its index argument and returns
the current channel name: with two channels and channel 0 current, reading
slot 1 by position or by name yields `CH1` instead of `CH2`, and the raw
getter performs no range check at all (index 5 also yields `CH1`), where
selector resolution itself would reject 5. -/
theorem channel_name_get_ignores_index :
    (initChannels 2).channel = 0 ∧
    (initChannels 2).channel_name = ["CH1", "CH2"] ∧
    channels_name_get (.idx 1) (initChannels 2) = .ok "CH1" ∧
    channels_name_get (.name "CH2") (initChannels 2) = .ok "CH1" ∧
    base_get_channel_name (.idx 5) (initChannels 2) = "CH1" ∧
    get_index (initChannels 2).channel_name (.idx 5) =
      .error .selectorRange := by
  decide

/-- C6: the claim (and the spec, which flags the cross-wiring as a defect)
says each attribute reads its own backing field.  Setting
`voltage.protection` to 7.5 stores 7.5 in the protection list and leaves
`voltage.off` untouched, but the getter reads the `voltage.off` list and
returns 0, not the 7.5 just written. -/
theorem voltage_protection_get_cross_wired :
    base_get_voltage_protection
        (base_set_voltage_protection (mkRat 15 2) (initChannels 1)) = 0 ∧
    (base_set_voltage_protection (mkRat 15 2)
        (initChannels 1)).channel_voltage_protection = [mkRat 15 2] ∧
    (base_set_voltage_protection (mkRat 15 2)
        (initChannels 1)).channel_voltage_off =
      (initChannels 1).channel_voltage_off ∧
    mkRat 15 2 ≠ (0 : ℚ) := by
  decide

/-- C7: the claim matches the clear intent (bounds check with
`OutOfRangeException`, recall invalidates every cache entry), but the code
slips twice: out of range, the raise itself hits the undefined name
`OutOfRangeException`; in range and not simulating, `"RCLS %d" % index+1`
adds an integer to a string and raises `TypeError` before writing or
invalidating, and a simulate-mode recall returns with every validity flag
untouched. -/
theorem memory_recall_crashes_before_invalidate :
    memory_recall 2 rsaLive = (rsaLive, [], some .typeError) ∧
    memory_recall (-1) rsaLive =
      (rsaLive, [], some (.nameError "OutOfRangeException")) ∧
    memory_recall 9 rsaLive =
      (rsaLive, [], some (.nameError "OutOfRangeException")) ∧
    memory_recall 2 rsaSim = (rsaSim, [], none) ∧
    rsaSim.valid_frequency_center = true ∧
    memory_save 2 rsaLive = (rsaLive, [], some .typeError) := by
  decide

/-- C8: setting `current.protection` to a string whose upper-case form is
`MIN` or `MAX` emits the mnemonic verbatim after the `:CURR:PROT` header;
a float value is emitted as its decimal text. -/
theorem current_protection_min_max_verbatim (s : String) (q : ℚ)
    (st : LoadState) (h : st.simulate = false) :
    ((pyUpper s = "MIN" ∨ pyUpper s = "MAX") →
      scpi_set_current_protection (.str s) st =
        (st, [.write (":CURR:PROT " ++ pyUpper s)])) ∧
    scpi_set_current_protection (.num q) st =
      (st, [.write (":CURR:PROT " ++ decRender q)]) := by
  constructor
  · intro hs
    simp [scpi_set_current_protection, h, hs]
  · simp [scpi_set_current_protection, h]

/-- C8 witness at `s = "max"`, `q = 5`, a live single-channel load. -/
theorem current_protection_min_max_verbatim_witness :
    (initChannels 1).simulate = false ∧
    (((pyUpper "max" = "MIN" ∨ pyUpper "max" = "MAX") →
      scpi_set_current_protection (.str "max") (initChannels 1) =
        (initChannels 1, [.write (":CURR:PROT " ++ pyUpper "max")])) ∧
    scpi_set_current_protection (.num 5) (initChannels 1) =
      (initChannels 1, [.write (":CURR:PROT " ++ decRender 5)])) :=
  ⟨by decide,
   current_protection_min_max_verbatim "max" 5 (initChannels 1) (by decide)⟩

/-- C9: a string value whose upper-case form is neither `MIN` nor `MAX`
makes every numeric setter fall through: nothing is written, no error is
raised, and the state is returned unchanged, whether simulating or not. -/
theorem non_sentinel_string_set_is_no_op (cmd s : String)
    (st : LoadState) (h1 : pyUpper s ≠ "MIN") (h2 : pyUpper s ≠ "MAX") :
    scpi_set_scalar cmd (.str s) st = (st, []) ∧
    scpi_set_current_protection (.str s) st = (st, []) ∧
    scpi_set_voltage_on (.str s) st = (st, []) := by
  cases hs : st.simulate <;>
    simp [scpi_set_scalar, scpi_set_current_protection,
      scpi_set_voltage_on, hs, h1, h2]

/-- C9 witness at `cmd = "POW"`, `s = "half"`. -/
theorem non_sentinel_string_set_is_no_op_witness :
    (pyUpper "half" ≠ "MIN" ∧ pyUpper "half" ≠ "MAX") ∧
    (scpi_set_scalar "POW" (.str "half") (initChannels 1) =
      (initChannels 1, []) ∧
    scpi_set_current_protection (.str "half") (initChannels 1) =
      (initChannels 1, []) ∧
    scpi_set_voltage_on (.str "half") (initChannels 1) =
      (initChannels 1, [])) :=
  ⟨⟨by decide, by decide⟩,
   non_sentinel_string_set_is_no_op "POW" "half" (initChannels 1)
     (by decide) (by decide)⟩

/-- C10: every call to `_set_rf_attenuation` stores the value, forces
`_rf_attenuation_auto` to `False`, and changes no other rf backing
field. -/
theorem set_rf_attenuation_forces_manual (v : ℚ) (st : RsaState) :
    ((set_rf_attenuation v st).1).rf_attenuation_auto = false ∧
    ((set_rf_attenuation v st).1).rf_attenuation = v ∧
    ((set_rf_attenuation v st).1).rf_level = st.rf_level ∧
    ((set_rf_attenuation v st).1).rf_output_enabled =
      st.rf_output_enabled ∧
    ((set_rf_attenuation v st).1).rf_power_mode = st.rf_power_mode ∧
    ((set_rf_attenuation v st).1).rf_power_offset = st.rf_power_offset ∧
    ((set_rf_attenuation v st).1).rf_power_span = st.rf_power_span ∧
    ((set_rf_attenuation v st).1).rf_tracking_adjust =
      st.rf_tracking_adjust :=
  ⟨rfl, rfl, rfl, rfl, rfl, rfl, rfl, rfl⟩

end Ivi
